import Mathlib

/-!
Verification of the hierarchical chunking and retrieval-strategy subsystem of
the rag-engine repository, shallowly embedded in Lean 4.

The embedding follows the Python sources:
  * `src/services/hierarchical_chunking_service.py` (structure extraction,
    header-delimited chunk building, header-text classification),
  * `src/services/query_service.py` (intent detection, smart retrieval,
    feedback fusion, the `search` entry point),
  * `src/repositories/feedback_repository.py` (Bayesian-smoothed feedback
    scores),
  * `src/strategies/content_strategy_selector.py` (BOOK/CHAPTER/DOCUMENT
    detection).

Modelling conventions: Python floats become `ℚ` (the claims under study are
about exact arithmetic shapes, not IEEE rounding); Python strings become
`String` with character-level helpers that reproduce `str.lower`, `str.strip`,
`str.split` and substring tests for the ASCII/Latin-1 range the inputs use;
fallible external calls (embedding model, vector store, reranker, LLM) become
`Except`-valued fields of an environment record, mirroring the `try/except`
structure of the source; the regular expressions of the source, all of which
are star-height-one patterns over literal alternatives and character classes,
are compiled by hand into total matching functions whose backtracking
behaviour is reproduced case by case.  Fields of the source's records that no
claim mentions and that are nondeterministic in the source (UUIDs, the
`key_terms`/`equations` lists, which pass through `set()`) are omitted from
the embedded records; every field a claim mentions is embedded.
-/

namespace RagEngine

/-! ## String helpers mirroring Python's built-ins -/

/-- Python's whitespace class for `str.strip`, `str.split()` and the regex
class `\s`, restricted to the ASCII range the repository's inputs use. -/
def pySpace (c : Char) : Bool :=
  c = ' ' || c = '\t' || c = '\n' || c = '\r' || c = '\x0b' || c = '\x0c'

/-- Python's `str.strip()` (no arguments): drop leading and trailing
whitespace. -/
def pyStrip (s : String) : String :=
  String.mk (((s.toList.dropWhile pySpace).reverse.dropWhile pySpace).reverse)

/-- Python's `str.lower()` on the ASCII and Latin-1 letters (the only
characters the embedded inputs contain); `×` (0xD7) is not a letter and is
left alone, and `Â` (0xC2) lowers to `â` (0xE2) exactly as in Python. -/
def pyLowerChar (c : Char) : Char :=
  if c.isUpper then Char.ofNat (c.toNat + 32)
  else if 0xC0 ≤ c.toNat ∧ c.toNat ≤ 0xDE ∧ c.toNat ≠ 0xD7 then Char.ofNat (c.toNat + 32)
  else c

/-- Python's `str.lower()`, character by character. -/
def pyLower (s : String) : String :=
  String.mk (s.toList.map pyLowerChar)

/-- Python's `sub in s` substring test. -/
def strContains (s sub : String) : Bool :=
  (List.range (s.toList.length + 1)).any (fun i => sub.toList.isPrefixOf (s.toList.drop i))

/-- Python's `s.startswith(p)` / an `^`-anchored literal under `re.search`. -/
def strStarts (s p : String) : Bool :=
  p.toList.isPrefixOf s.toList

/-- Accumulator loop for `pySplitWs`: `cur` holds the current word reversed,
`acc` the finished words reversed. -/
def pySplitWsAux : List Char → List Char → List String → List String
  | [], cur, acc =>
    (if cur.isEmpty then acc else String.mk cur.reverse :: acc).reverse
  | c :: cs, cur, acc =>
    if pySpace c then
      if cur.isEmpty then pySplitWsAux cs [] acc
      else pySplitWsAux cs [] (String.mk cur.reverse :: acc)
    else pySplitWsAux cs (c :: cur) acc

/-- Python's `str.split()` with no argument: split on whitespace runs,
dropping empty pieces. -/
def pySplitWs (s : String) : List String :=
  pySplitWsAux s.toList [] []

/-- Accumulator loop for `splitLines`. -/
def splitLinesAux : List Char → List Char → List String → List String
  | [], cur, acc => (String.mk cur.reverse :: acc).reverse
  | c :: cs, cur, acc =>
    if c = '\n' then splitLinesAux cs [] (String.mk cur.reverse :: acc)
    else splitLinesAux cs (c :: cur) acc

/-- Python's `text.split('\n')`: split at every newline, keeping empty
pieces. -/
def splitLines (s : String) : List String :=
  splitLinesAux s.toList [] []

/-- The decimal value of a digit string, Python's `int(...)` on the capture
of `(\d+)`. -/
def digitsToNat (ds : List Char) : Nat :=
  ds.foldl (fun acc c => 10 * acc + (c.toNat - 48)) 0

/-- `strContains` agrees with list-infix occurrence: `sub` occurs inside `s`
exactly when its character list is an infix of `s`'s character list. -/
theorem strContains_iff (s sub : String) :
    strContains s sub = true ↔ sub.toList <:+: s.toList := by
  unfold strContains
  rw [List.any_eq_true]
  constructor
  · rintro ⟨i, -, hp⟩
    exact (List.isPrefixOf_iff_prefix.mp hp).isInfix.trans (List.drop_suffix i s.toList).isInfix
  · rintro ⟨t, u, htu⟩
    refine ⟨t.length, ?_, List.isPrefixOf_iff_prefix.mpr ⟨u, ?_⟩⟩
    · rw [List.mem_range]
      have h : t.length ≤ s.toList.length := by
        rw [← htu]; simp
      omega
    · rw [← htu, List.append_assoc, List.drop_left]

/-- `strStarts` agrees with the list-prefix relation. -/
theorem strStarts_iff (s p : String) :
    strStarts s p = true ↔ p.toList <+: s.toList := by
  unfold strStarts
  exact List.isPrefixOf_iff_prefix

/-! ## Chunk types (`models/api_models.py`, `class ChunkType`) -/

/-- The four semantic chunk categories of `ChunkType` in
`models/api_models.py`. -/
inductive ChunkType where
  | CONCEPT
  | EXAMPLE
  | QUESTION
  | OTHER
deriving DecidableEq

/-! ## Header-text classification
(`HierarchicalChunkingService._classify_chunk_type_from_header`) -/

/-- `self.example_header_patterns` from `HierarchicalChunkingService.__init__`. -/
def example_header_patterns : List String :=
  ["example", "sample", "worked", "demonstration", "illustration", "case study"]

/-- `self.question_header_patterns` from `HierarchicalChunkingService.__init__`. -/
def question_header_patterns : List String :=
  ["exercise", "problem", "question", "checkpoint", "practice", "review", "test yourself"]

/-- `HierarchicalChunkingService._classify_chunk_type_from_header`: lowercase
the header text, check the EXAMPLE keyword list first, then the QUESTION
keyword list, and default to CONCEPT. -/
def classify_chunk_type_from_header (header_text : String) : ChunkType :=
  let header_lower := pyLower header_text
  if example_header_patterns.any (fun p => strContains header_lower p) then ChunkType.EXAMPLE
  else if question_header_patterns.any (fun p => strContains header_lower p) then ChunkType.QUESTION
  else ChunkType.CONCEPT

/-! ## Query-intent detection (`QueryService._detect_query_intent`) -/

/-- One regex from the intent-pattern lists of `QueryService.__init__`.  Each
of those regexes is either an `^`-anchored alternation of literals (matched by
`re.search` exactly when the query starts with one of the alternatives) or a
bare literal (matched exactly when the query contains it). -/
inductive QPat where
  | anchored (alts : List String)
  | literal (kw : String)
deriving DecidableEq

/-- Whether one pattern of `QueryService.__init__` matches the (lowercased,
stripped) query, the semantics of `re.search(pattern, query_lower)`. -/
def qpatMatch (q : String) : QPat → Bool
  | QPat.anchored alts => alts.any (fun a => strStarts q a)
  | QPat.literal kw => strContains q kw

/-- `self.concept_patterns` from `QueryService.__init__`.  `^what (is|are|does|do)`
is unfolded into its four literal alternatives; note the source list contains
`understanding`, which the specification's list omits. -/
def concept_patterns : List QPat :=
  [QPat.anchored ["what is", "what are", "what does", "what do"],
   QPat.anchored ["explain"],
   QPat.anchored ["define"],
   QPat.anchored ["describe"],
   QPat.literal "definition of",
   QPat.literal "meaning of",
   QPat.literal "concept of",
   QPat.literal "understanding",
   QPat.literal "tell me about"]

/-- `self.example_patterns` from `QueryService.__init__`; note the source list
contains `illustration`, which the specification's list omits. -/
def example_patterns : List QPat :=
  [QPat.literal "example",
   QPat.literal "show me",
   QPat.literal "demonstrate",
   QPat.literal "illustration",
   QPat.literal "sample",
   QPat.literal "case study"]

/-- `self.question_patterns` from `QueryService.__init__`. -/
def question_patterns : List QPat :=
  [QPat.anchored ["how do", "how to", "how can"],
   QPat.anchored ["solve"],
   QPat.anchored ["calculate"],
   QPat.anchored ["find"],
   QPat.anchored ["determine"],
   QPat.literal "practice",
   QPat.literal "exercise",
   QPat.literal "problem"]

/-- `QueryService._detect_query_intent`: lowercase and strip the query, then
test the CONCEPT, EXAMPLE and QUESTION families in that order; the first
family containing a matching pattern wins, and no match yields `none`. -/
def detect_query_intent (query : String) : Option ChunkType :=
  let q := pyStrip (pyLower query)
  if concept_patterns.any (qpatMatch q) then some ChunkType.CONCEPT
  else if example_patterns.any (qpatMatch q) then some ChunkType.EXAMPLE
  else if question_patterns.any (qpatMatch q) then some ChunkType.QUESTION
  else none

/-! ## Claims C6 and C5 -/

/-- Keyword lists matched against the lowercased text, as a proposition:
some keyword of `pats` occurs as a substring. -/
def kwOccurs (pats : List String) (s : String) : Prop :=
  ∃ p ∈ pats, p.toList <:+: (pyLower s).toList

instance (pats : List String) (s : String) : Decidable (kwOccurs pats s) := by
  unfold kwOccurs; infer_instance

theorem kwOccurs_iff_any (pats : List String) (s : String) :
    pats.any (fun p => strContains (pyLower s) p) = true ↔ kwOccurs pats s := by
  rw [List.any_eq_true]
  constructor
  · rintro ⟨p, hp, hc⟩; exact ⟨p, hp, (strContains_iff _ _).mp hc⟩
  · rintro ⟨p, hp, hc⟩; exact ⟨p, hp, (strContains_iff _ _).mpr hc⟩

/-- C6: `_classify_chunk_type_from_header` is a pure function of the header
text that lowercases it and returns EXAMPLE if some EXAMPLE keyword
(`example, sample, worked, demonstration, illustration, case study`) occurs
as a substring, else QUESTION if some QUESTION keyword (`exercise, problem,
question, checkpoint, practice, review, test yourself`) occurs, else CONCEPT;
the EXAMPLE set is checked before the QUESTION set, so "Example Problem 5.1"
classifies as EXAMPLE; the spec's four sample headers classify as stated, and
the classifier never returns OTHER. -/
theorem C6_classify_from_header :
    (∀ s : String,
      (classify_chunk_type_from_header s = ChunkType.EXAMPLE ↔
        kwOccurs example_header_patterns s) ∧
      (classify_chunk_type_from_header s = ChunkType.QUESTION ↔
        ¬ kwOccurs example_header_patterns s ∧ kwOccurs question_header_patterns s) ∧
      (classify_chunk_type_from_header s = ChunkType.CONCEPT ↔
        ¬ kwOccurs example_header_patterns s ∧ ¬ kwOccurs question_header_patterns s) ∧
      classify_chunk_type_from_header s ≠ ChunkType.OTHER) ∧
    classify_chunk_type_from_header "Example Problem 5.1" = ChunkType.EXAMPLE ∧
    classify_chunk_type_from_header "Example 5.1" = ChunkType.EXAMPLE ∧
    classify_chunk_type_from_header "Exercise 5.3" = ChunkType.QUESTION ∧
    classify_chunk_type_from_header "5.4 Newton's Second Law" = ChunkType.CONCEPT ∧
    classify_chunk_type_from_header "Introduction" = ChunkType.CONCEPT := by
  refine ⟨fun s => ?_, by decide, by decide, by decide, by decide, by decide⟩
  have he := kwOccurs_iff_any example_header_patterns s
  have hq := kwOccurs_iff_any question_header_patterns s
  rw [← he, ← hq]
  unfold classify_chunk_type_from_header
  by_cases h1 : example_header_patterns.any (fun p => strContains (pyLower s) p) = true
  · simp [h1]
  · by_cases h2 : question_header_patterns.any (fun p => strContains (pyLower s) p) = true
    · simp [h1, h2]
    · simp [h1, h2]

/-- The CONCEPT intent family exactly as the specification lists it: the
source's extra pattern `understanding` is absent. -/
def spec_concept_patterns : List QPat :=
  [QPat.anchored ["what is", "what are", "what does", "what do"],
   QPat.anchored ["explain"],
   QPat.anchored ["define"],
   QPat.anchored ["describe"],
   QPat.literal "definition of",
   QPat.literal "meaning of",
   QPat.literal "concept of",
   QPat.literal "tell me about"]

/-- The EXAMPLE intent family exactly as the specification lists it: the
source's extra pattern `illustration` is absent. -/
def spec_example_patterns : List QPat :=
  [QPat.literal "example",
   QPat.literal "show me",
   QPat.literal "demonstrate",
   QPat.literal "sample",
   QPat.literal "case study"]

/-- The QUESTION intent family as the specification lists it (identical to
the source's list). -/
def spec_question_patterns : List QPat :=
  [QPat.anchored ["how do", "how to", "how can"],
   QPat.anchored ["solve"],
   QPat.anchored ["calculate"],
   QPat.anchored ["find"],
   QPat.anchored ["determine"],
   QPat.literal "practice",
   QPat.literal "exercise",
   QPat.literal "problem"]

/-- Intent detection as claim C5 states it: the same first-match-wins scan,
but over the three families consisting exactly of the patterns the
specification lists. -/
def detect_query_intent_speclisted (query : String) : Option ChunkType :=
  let q := pyStrip (pyLower query)
  if spec_concept_patterns.any (qpatMatch q) then some ChunkType.CONCEPT
  else if spec_example_patterns.any (qpatMatch q) then some ChunkType.EXAMPLE
  else if spec_question_patterns.any (qpatMatch q) then some ChunkType.QUESTION
  else none

/-- C5 counterexample: on the query "Understanding forces" no pattern of the
spec's three families matches, so the claimed detector returns `none`, yet
the source's `_detect_query_intent` returns CONCEPT because its CONCEPT list
also contains the pattern `understanding`, which the claim's family list
lacks. -/
theorem C5_counterexample :
    detect_query_intent_speclisted "Understanding forces" = none ∧
    detect_query_intent "Understanding forces" = some ChunkType.CONCEPT := by
  exact ⟨by decide, by decide⟩

/-- One intent pattern as a proposition over the lowercased, stripped query:
an anchored alternation holds when some alternative is a prefix, a literal
when it is a substring. -/
def qpatHolds (q : String) : QPat → Prop
  | QPat.anchored alts => ∃ a ∈ alts, a.toList <+: q.toList
  | QPat.literal kw => kw.toList <:+: q.toList

instance (q : String) (p : QPat) : Decidable (qpatHolds q p) := by
  cases p <;> (unfold qpatHolds; infer_instance)

theorem qpatMatch_iff (q : String) (p : QPat) :
    qpatMatch q p = true ↔ qpatHolds q p := by
  cases p with
  | anchored alts =>
    unfold qpatMatch qpatHolds
    rw [List.any_eq_true]
    constructor
    · rintro ⟨a, ha, hs⟩; exact ⟨a, ha, (strStarts_iff _ _).mp hs⟩
    · rintro ⟨a, ha, hs⟩; exact ⟨a, ha, (strStarts_iff _ _).mpr hs⟩
  | literal kw =>
    unfold qpatMatch qpatHolds
    exact strContains_iff _ _

/-- Some pattern of an intent family matches, as a proposition. -/
def famMatches (pats : List QPat) (query : String) : Prop :=
  ∃ p ∈ pats, qpatHolds (pyStrip (pyLower query)) p

instance (pats : List QPat) (query : String) : Decidable (famMatches pats query) := by
  unfold famMatches; infer_instance

theorem famMatches_iff_any (pats : List QPat) (query : String) :
    pats.any (qpatMatch (pyStrip (pyLower query))) = true ↔ famMatches pats query := by
  rw [List.any_eq_true]
  constructor
  · rintro ⟨p, hp, hm⟩; exact ⟨p, hp, (qpatMatch_iff _ _).mp hm⟩
  · rintro ⟨p, hp, hm⟩; exact ⟨p, hp, (qpatMatch_iff _ _).mpr hm⟩

/-- C5 amended: `_detect_query_intent` lowercases and strips the query and
tests the three ordered families — the spec's CONCEPT family plus the extra
source pattern `understanding`, then the spec's EXAMPLE family plus the extra
source pattern `illustration`, then the spec's QUESTION family — returning
the chunk type of the first family containing a match and `none` when no
pattern of the three (amended) families matches; the four sample queries
evaluate as the claim states. -/
theorem C5_amended_intent_detection :
    (∀ q : String,
      (detect_query_intent q = some ChunkType.CONCEPT ↔ famMatches concept_patterns q) ∧
      (detect_query_intent q = some ChunkType.EXAMPLE ↔
        ¬ famMatches concept_patterns q ∧ famMatches example_patterns q) ∧
      (detect_query_intent q = some ChunkType.QUESTION ↔
        ¬ famMatches concept_patterns q ∧ ¬ famMatches example_patterns q ∧
        famMatches question_patterns q) ∧
      (detect_query_intent q = none ↔
        ¬ famMatches concept_patterns q ∧ ¬ famMatches example_patterns q ∧
        ¬ famMatches question_patterns q)) ∧
    detect_query_intent "What is Newton's second law?" = some ChunkType.CONCEPT ∧
    detect_query_intent "Show me an example of force calculation" = some ChunkType.EXAMPLE ∧
    detect_query_intent "How do I solve momentum problems?" = some ChunkType.QUESTION ∧
    detect_query_intent "Physics overview" = none := by
  refine ⟨fun q => ?_, by decide, by decide, by decide, by decide⟩
  have hc := famMatches_iff_any concept_patterns q
  have he := famMatches_iff_any example_patterns q
  have hqu := famMatches_iff_any question_patterns q
  rw [← hc, ← he, ← hqu]
  unfold detect_query_intent
  by_cases h1 : concept_patterns.any (qpatMatch (pyStrip (pyLower q))) = true
  · simp [h1]
  · by_cases h2 : example_patterns.any (qpatMatch (pyStrip (pyLower q))) = true
    · simp [h1, h2]
    · by_cases h3 : question_patterns.any (qpatMatch (pyStrip (pyLower q))) = true
      · simp [h1, h2, h3]
      · simp [h1, h2, h3]

/-- The detector never reports the OTHER category (helper shared by the
retrieval claims). -/
theorem detect_query_intent_ne_OTHER (q : String) :
    detect_query_intent q ≠ some ChunkType.OTHER := by
  unfold detect_query_intent
  by_cases h1 : concept_patterns.any (qpatMatch (pyStrip (pyLower q))) = true
  · simp [h1]
  · by_cases h2 : example_patterns.any (qpatMatch (pyStrip (pyLower q))) = true
    · simp [h1, h2]
    · by_cases h3 : question_patterns.any (qpatMatch (pyStrip (pyLower q))) = true
      · simp [h1, h2, h3]
      · simp [h1, h2, h3]

/-! ## Search results and smart retrieval (`QueryService._smart_chunk_retrieval`)

A Qdrant search result is a dict with a `score`, a `payload` carrying `text`
and `document_id`, and optionally a `rerank_score` added by the reranker and
a `feedback_score` added by feedback fusion.  `result.get("score", 0)` and
`payload.get(..., default)` defaults are folded into total fields; the
optional dict keys are `Option` fields. -/

structure SearchResult where
  score : ℚ
  docId : String
  text : String
  rerankScore : Option ℚ
  feedbackScore : Option ℚ
deriving DecidableEq

/-- `combined.sort(key=lambda x: x.get("score", 0), reverse=True)`: Python's
sort is a stable sort by the key, so any stable sort by score descending
computes the same list; insertion sort is used because it is structurally
recursive (it keeps an element before a later one exactly when its score is
at least as large, which preserves the original order of equal scores). -/
def sortByScoreDesc (l : List SearchResult) : List SearchResult :=
  List.insertionSort (fun a b => b.score ≤ a.score) l

/-- `QueryService._smart_chunk_retrieval`, abstracted over the vector-store
call: `qc n t` stands for `self.qdrant_repo.query_collection(collection_name,
query_vector, limit=n, chunk_type=t)` (collection name and query vector are
fixed for the duration of one retrieval).  The `if`/`elif` chain over the
detected intent is kept as in the source. -/
def smart_chunk_retrieval (qc : Nat → Option ChunkType → List SearchResult)
    (query_text : String) (limit : Nat) : List SearchResult :=
  match detect_query_intent query_text with
  | none => qc limit none
  | some intent =>
    let primary := qc (limit / 2) (some intent)
    let secondary :=
      if intent = ChunkType.CONCEPT then qc (limit / 2) (some ChunkType.EXAMPLE)
      else if intent = ChunkType.EXAMPLE then qc (limit / 2) (some ChunkType.CONCEPT)
      else if intent = ChunkType.QUESTION then qc (limit / 2) (some ChunkType.EXAMPLE)
      else []
    (sortByScoreDesc (primary ++ secondary)).take limit

/-- The complementary chunk type of claim C4: CONCEPT pairs with EXAMPLE,
EXAMPLE with CONCEPT, QUESTION with EXAMPLE.  (OTHER is never a detected
intent; it is mapped to itself.) -/
def complementary : ChunkType → ChunkType
  | ChunkType.CONCEPT => ChunkType.EXAMPLE
  | ChunkType.EXAMPLE => ChunkType.CONCEPT
  | ChunkType.QUESTION => ChunkType.EXAMPLE
  | ChunkType.OTHER => ChunkType.OTHER

/-- Smart retrieval as claim C4 words it: one unfiltered search when no
intent is detected; otherwise a primary filtered search and a secondary
search filtered to the complementary type, concatenated, sorted by score
descending and truncated to the limit. -/
def smart_retrieval_spec (qc : Nat → Option ChunkType → List SearchResult)
    (query_text : String) (limit : Nat) : List SearchResult :=
  match detect_query_intent query_text with
  | none => qc limit none
  | some intent =>
    (sortByScoreDesc
      (qc (limit / 2) (some intent) ++ qc (limit / 2) (some (complementary intent)))).take limit

/-- C4: for every oracle, query and limit, `_smart_chunk_retrieval` behaves
as the claim states — a single unfiltered search for `limit` results when the
intent is null, and otherwise primary and secondary filtered searches for
`limit/2` results each (the complement being EXAMPLE for CONCEPT, CONCEPT for
EXAMPLE and EXAMPLE for QUESTION), concatenated, sorted by similarity score
descending, truncated to `limit`. -/
theorem C4_smart_retrieval (qc : Nat → Option ChunkType → List SearchResult)
    (query_text : String) (limit : Nat) :
    smart_chunk_retrieval qc query_text limit = smart_retrieval_spec qc query_text limit ∧
    (detect_query_intent query_text = none →
      smart_chunk_retrieval qc query_text limit = qc limit none) ∧
    (∀ i, detect_query_intent query_text = some i →
      smart_chunk_retrieval qc query_text limit =
        (sortByScoreDesc
          (qc (limit / 2) (some i) ++ qc (limit / 2) (some (complementary i)))).take limit) := by
  refine ⟨?_, ?_, ?_⟩
  · cases h : detect_query_intent query_text with
    | none => simp [smart_chunk_retrieval, smart_retrieval_spec, h]
    | some i =>
      cases i with
      | OTHER => exact absurd h (detect_query_intent_ne_OTHER query_text)
      | CONCEPT => simp [smart_chunk_retrieval, smart_retrieval_spec, h, complementary]
      | EXAMPLE => simp [smart_chunk_retrieval, smart_retrieval_spec, h, complementary]
      | QUESTION => simp [smart_chunk_retrieval, smart_retrieval_spec, h, complementary]
  · intro h; simp [smart_chunk_retrieval, h]
  · intro i h
    cases i with
    | OTHER => exact absurd h (detect_query_intent_ne_OTHER query_text)
    | CONCEPT => simp [smart_chunk_retrieval, h, complementary]
    | EXAMPLE => simp [smart_chunk_retrieval, h, complementary]
    | QUESTION => simp [smart_chunk_retrieval, h, complementary]

/-- C10: when an intent is detected, each of the two sub-searches is issued
with `limit / 2` (floor division), so at most `2 * (limit / 2)` results come
back whenever the vector store honours its limit; for `limit = 1` both
sub-searches ask for 0 results and the retrieval is empty whatever the
collection holds, and for every odd `limit` strictly fewer than `limit`
candidates are returned. -/
theorem C10_intent_halves_limit (qc : Nat → Option ChunkType → List SearchResult)
    (hqc : ∀ n t, (qc n t).length ≤ n) (query_text : String) (limit : Nat)
    (hintent : detect_query_intent query_text ≠ none) :
    (smart_chunk_retrieval qc query_text limit).length ≤ 2 * (limit / 2) ∧
    (limit = 1 → smart_chunk_retrieval qc query_text limit = []) ∧
    (Odd limit → (smart_chunk_retrieval qc query_text limit).length < limit) := by
  match h : detect_query_intent query_text with
  | none => exact absurd h hintent
  | some i =>
    have hlen : ∀ a b : List SearchResult,
        ((sortByScoreDesc (a ++ b)).take limit).length = min limit (a.length + b.length) := by
      intro a b
      rw [List.length_take, sortByScoreDesc, List.length_insertionSort, List.length_append]
    have key : (smart_chunk_retrieval qc query_text limit).length ≤ 2 * (limit / 2) := by
      cases i with
      | OTHER => exact absurd h (detect_query_intent_ne_OTHER query_text)
      | CONCEPT =>
        simp [smart_chunk_retrieval, h, hlen]
        have h1 := hqc (limit / 2) (some ChunkType.CONCEPT)
        have h2 := hqc (limit / 2) (some ChunkType.EXAMPLE)
        omega
      | EXAMPLE =>
        simp [smart_chunk_retrieval, h, hlen]
        have h1 := hqc (limit / 2) (some ChunkType.EXAMPLE)
        have h2 := hqc (limit / 2) (some ChunkType.CONCEPT)
        omega
      | QUESTION =>
        simp [smart_chunk_retrieval, h, hlen]
        have h1 := hqc (limit / 2) (some ChunkType.QUESTION)
        have h2 := hqc (limit / 2) (some ChunkType.EXAMPLE)
        omega
    refine ⟨key, ?_, ?_⟩
    · intro h1
      subst h1
      have : (smart_chunk_retrieval qc query_text 1).length ≤ 0 := by
        simpa using key
      exact List.length_eq_zero.mp (Nat.le_zero.mp this)
    · intro hodd
      obtain ⟨k, hk⟩ := hodd
      omega

/-- Witness for C10 at a concrete oracle, query and limit. -/
theorem C10_witness :
    (smart_chunk_retrieval (fun _ _ => []) "practice problems" 3).length ≤ 2 * (3 / 2) ∧
    (3 = 1 → smart_chunk_retrieval (fun _ _ => []) "practice problems" 3 = []) ∧
    (Odd 3 → (smart_chunk_retrieval (fun _ _ => []) "practice problems" 3).length < 3) :=
  C10_intent_halves_limit (fun _ _ => []) (fun _ _ => by simp) "practice problems" 3
    (by decide)

/-! ## Feedback scoring (`FeedbackRepository`, `QueryService._apply_feedback_scoring`) -/

/-- One stored feedback entry as `calculate_feedback_scores` reads it: the
list of document ids it mentions and its thumbs label (`1` = positive). -/
structure Feedback where
  doc_ids : List String
  label : Int
deriving DecidableEq

/-- `FeedbackRepository._bayesian_smooth`. -/
def bayesian_smooth (positive total : Nat) (alpha beta : ℚ) : ℚ :=
  ((positive : ℚ) + alpha) / ((total : ℚ) + alpha + beta)

/-- The per-document loop body of `FeedbackRepository.calculate_feedback_scores`:
count the relevant feedback entries whose `doc_ids` mention the document,
count the positive ones among them, and smooth with `alpha = beta = 1.0`
(`0.5` when the document appears in no entry). -/
def feedback_score_of (relevant_feedback : List Feedback) (doc_id : String) : ℚ :=
  let total_count := relevant_feedback.countP (fun f => decide (doc_id ∈ f.doc_ids))
  let positive_count :=
    relevant_feedback.countP (fun f => decide (doc_id ∈ f.doc_ids) && decide (f.label = 1))
  if total_count = 0 then 1/2 else bayesian_smooth positive_count total_count 1 1

/-- `FeedbackRepository.calculate_feedback_scores`: the returned dict, as an
association list keyed by the queried document ids. -/
def calculate_feedback_scores (doc_ids : List String) (relevant_feedback : List Feedback) :
    List (String × ℚ) :=
  doc_ids.map (fun d => (d, feedback_score_of relevant_feedback d))

/-- The Bayesian-smoothed positive ratio exactly as claim C7 words it:
`(positives + 1) / (total + 2)` over the feedback entries that mention the
document id (which equals the default 0.5 when no entry mentions it). -/
def smoothed_positive_ratio (fb : List Feedback) (d : String) : ℚ :=
  ((fb.countP (fun f => decide (d ∈ f.doc_ids) && decide (f.label = 1)) : ℚ) + 1) /
  ((fb.countP (fun f => decide (d ∈ f.doc_ids)) : ℚ) + 2)

theorem feedback_score_of_eq_ratio (fb : List Feedback) (d : String) :
    feedback_score_of fb d = smoothed_positive_ratio fb d := by
  unfold feedback_score_of smoothed_positive_ratio bayesian_smooth
  have hle : fb.countP (fun f => decide (d ∈ f.doc_ids) && decide (f.label = 1)) ≤
      fb.countP (fun f => decide (d ∈ f.doc_ids)) := by
    apply List.countP_mono_left
    intro f _ hf
    exact (Bool.and_elim_left hf)
  by_cases h0 : fb.countP (fun f => decide (d ∈ f.doc_ids)) = 0
  · have hp : fb.countP (fun f => decide (d ∈ f.doc_ids) && decide (f.label = 1)) = 0 := by
      omega
    rw [if_pos h0, h0, hp]
    norm_num
  · rw [if_neg h0]
    ring_nf

theorem lookup_calculate_feedback_scores (doc_ids : List String) (fb : List Feedback)
    (d : String) (hd : d ∈ doc_ids) :
    (calculate_feedback_scores doc_ids fb).lookup d = some (feedback_score_of fb d) := by
  induction doc_ids with
  | nil => cases hd
  | cons a tl ih =>
    by_cases hda : d = a
    · subst hda
      simp [calculate_feedback_scores, List.lookup]
    · have hne : (d == a) = false := beq_eq_false_iff_ne.mpr hda
      have hmem : d ∈ tl := by
        rcases List.mem_cons.mp hd with h | h
        · exact absurd h hda
        · exact h
      simp only [calculate_feedback_scores, List.map_cons, List.lookup, hne]
      exact ih hmem

/-! ## The query pipeline (`QueryService.search`)

`SearchEnv` gathers the external collaborators and configuration the pipeline
consumes: the embedding client (`generate_single_embedding`, may throw), the
raw Qdrant search (may throw; the repository wrapper catches), the reranker,
the feedback store (`get_relevant_feedback`, may throw inside the guarded
`_apply_feedback_scoring`), the LLM (`generate_answer`, may throw), the
response enhancer, the critic, and the `Config` flags and thresholds. -/

structure ChunkConfig where
  source : String
  text : String
deriving DecidableEq

/-- An opaque critic evaluation payload (`CriticEvaluation(**critic_evaluation)`);
its contents matter to no claim. -/
structure CriticEval where
  raw : String
deriving DecidableEq

/-- `models/api_models.py` `QueryResponse`, with defaults `critic = None`. -/
structure QueryResponse where
  answer : String
  confidence : ℚ
  is_relevant : Bool
  chunks : List ChunkConfig
  critic : Option CriticEval
deriving DecidableEq

structure SearchEnv where
  embed : String → Except String (List ℚ)
  rawSearch : String → List ℚ → Nat → Option ChunkType → Except String (List SearchResult)
  rerankerAvailable : Bool
  rerank : String → List SearchResult → Except String (List SearchResult)
  feedbackEnabled : Bool
  getRelevantFeedback : String → List ℚ → Except String (List Feedback)
  relevanceThreshold : ℚ
  llmGenerate : String → List String → Bool → Except String String
  enhanceResponse : String → String → String
  criticAvailable : Bool
  criticEvaluate : String → List String → String → Option CriticEval

/-- `QdrantRepository.query_collection`: any backend exception is caught
inside the repository and becomes the empty result list. -/
def query_collection (env : SearchEnv) (collection_name : String) (query_vector : List ℚ)
    (limit : Nat) (chunk_type : Option ChunkType) : List SearchResult :=
  match env.rawSearch collection_name query_vector limit chunk_type with
  | Except.error _ => []
  | Except.ok results => results

/-- `QueryService._apply_feedback_scoring`: skipped when feedback is disabled
or there are no results; any exception inside (here: of the feedback store)
returns the results unchanged; otherwise each result's score becomes
`0.45*original + 0.35*rerank + 0.10*feedback + 0.10*feedback` and the list is
re-sorted by score descending. -/
def apply_feedback_scoring (env : SearchEnv) (collection_name : String)
    (results : List SearchResult) (query_vector : List ℚ) : List SearchResult :=
  if !env.feedbackEnabled || results.isEmpty then results
  else
    match env.getRelevantFeedback collection_name query_vector with
    | Except.error _ => results
    | Except.ok relevant_feedback =>
      if relevant_feedback.isEmpty then results
      else
        let doc_ids := results.map (fun r => r.docId)
        let feedback_scores := calculate_feedback_scores doc_ids relevant_feedback
        let updated := results.map (fun r =>
          let original_score := r.score
          let rerank_score := r.rerankScore.getD original_score
          let feedback_score := (feedback_scores.lookup r.docId).getD (1/2)
          { r with
            score := 45/100 * original_score + 35/100 * rerank_score +
                     10/100 * feedback_score + 10/100 * feedback_score,
            feedbackScore := some feedback_score })
        sortByScoreDesc updated

/-- `QueryService._filter_relevant_results` at the configured relevance
threshold. -/
def filter_relevant_results (env : SearchEnv) (results : List SearchResult) :
    List SearchResult :=
  results.filter (fun r => decide (env.relevanceThreshold ≤ r.score))

/-- Python's `str.isprintable` on the ASCII range: control characters and DEL
are unprintable, everything else (space included under the `or c.isspace()`
disjunct of the source) passes. -/
def pyPrintable (c : Char) : Bool :=
  32 ≤ c.toNat && c.toNat ≠ 127

/-- `QueryService._is_valid_text`. -/
def is_valid_text (text : String) : Bool :=
  if text = "" || (pyStrip text).length = 0 then false
  else
    let printable_chars := text.toList.countP (fun c => pyPrintable c || pySpace c)
    decide ((8 : ℚ)/10 < (printable_chars : ℚ) / (text.length : ℚ))

/-- Loop of `QueryService._extract_relevant_chunks`: keep results with valid,
unseen text, as `ChunkConfig(source=document_id, text=text)`. -/
def extract_relevant_chunks_aux :
    List SearchResult → List String → List ChunkConfig → List ChunkConfig
  | [], _, acc => acc.reverse
  | r :: rest, seen, acc =>
    if r.text ≠ "" && is_valid_text r.text && !seen.contains r.text then
      extract_relevant_chunks_aux rest (r.text :: seen) (⟨r.docId, r.text⟩ :: acc)
    else
      extract_relevant_chunks_aux rest seen acc

/-- `QueryService._extract_relevant_chunks` (capped at 5 chunks). -/
def extract_relevant_chunks (results : List SearchResult) : List ChunkConfig :=
  (extract_relevant_chunks_aux results [] []).take 5

/-- Loop of `QueryService._extract_full_texts`. -/
def extract_full_texts_aux : List SearchResult → List String → List String → List String
  | [], _, acc => acc.reverse
  | r :: rest, seen, acc =>
    if r.text ≠ "" && is_valid_text r.text && !seen.contains r.text then
      extract_full_texts_aux rest (r.text :: seen) (r.text :: acc)
    else
      extract_full_texts_aux rest seen acc

/-- `QueryService._extract_full_texts` (capped at 5 texts). -/
def extract_full_texts (results : List SearchResult) : List String :=
  (extract_full_texts_aux results [] []).take 5

/-- `QueryService._calculate_confidence`: 0 on the empty list, else the
maximum score. -/
def calculate_confidence (results : List SearchResult) : ℚ :=
  match results.map (fun r => r.score) with
  | [] => 0
  | s :: rest => rest.foldl max s

/-- The empty-result response `QueryResponse(answer="Context not found",
confidence=0.0, is_relevant=False, chunks=[])`. -/
def contextNotFoundResponse : QueryResponse :=
  { answer := "Context not found", confidence := 0, is_relevant := false,
    chunks := [], critic := none }

/-- The corrupted-content response of `_create_query_response`. -/
def corruptedContentResponse : QueryResponse :=
  { answer := "Error: Stored content is corrupted or unreadable", confidence := 0,
    is_relevant := false, chunks := [], critic := none }

/-- `QueryService._create_query_response`; the LLM call may throw, which the
`Except` propagates to `search`'s catch-all handler. -/
def create_query_response (env : SearchEnv) (results : List SearchResult) (query : String)
    (enable_critic structured_output : Bool) : Except String QueryResponse :=
  let relevant_results := filter_relevant_results env results
  if relevant_results.isEmpty then Except.ok contextNotFoundResponse
  else
    let chunks := extract_relevant_chunks relevant_results
    if chunks.isEmpty then Except.ok corruptedContentResponse
    else do
      let chunk_texts := chunks.map (fun c => c.text)
      let full_chunk_texts := extract_full_texts relevant_results
      let answer0 ← env.llmGenerate query chunk_texts structured_output
      let answer := env.enhanceResponse answer0 query
      let confidence := calculate_confidence relevant_results
      let critic_result :=
        if enable_critic && env.criticAvailable then
          env.criticEvaluate query full_chunk_texts answer
        else none
      Except.ok { answer := answer, confidence := confidence, is_relevant := true,
                  chunks := chunks, critic := critic_result }

/-- `QueryService.search` in regular (non-quiz) mode.  The source wraps the
entire pipeline in `try/except Exception` and returns the "Context not found"
response from the handler, so the function's type is a plain `QueryResponse`:
no exception reaches the caller. -/
def search (env : SearchEnv) (collection_name : String) (query_text : String) (limit : Nat)
    (enable_critic structured_output : Bool) : QueryResponse :=
  match env.embed query_text with
  | Except.error _ => contextNotFoundResponse
  | Except.ok query_vector =>
    let results := smart_chunk_retrieval
      (fun n t => query_collection env collection_name query_vector n t) query_text limit
    match (if env.rerankerAvailable && !results.isEmpty then env.rerank query_text results
           else Except.ok results) with
    | Except.error _ => contextNotFoundResponse
    | Except.ok reranked =>
      let scored := apply_feedback_scoring env collection_name reranked query_vector
      match create_query_response env scored query_text enable_critic structured_output with
      | Except.error _ => contextNotFoundResponse
      | Except.ok response => response

/-- C7: when feedback fusion runs on a non-empty result list with relevant
feedback present, every candidate's feedback score is the Bayesian-smoothed
positive ratio `(positives + 1) / (total + 2)` over the feedback entries
mentioning its document id (0.5 when none does), its final score is exactly
`0.45*original + 0.35*rerank + 0.10*feedback + 0.10*feedback` (the feedback
weight appearing twice), and the list is re-sorted by final score
descending. -/
theorem C7_feedback_fusion (env : SearchEnv) (collection_name : String)
    (query_vector : List ℚ) (results : List SearchResult) (fb : List Feedback)
    (h1 : env.feedbackEnabled = true) (h2 : results ≠ [])
    (h3 : env.getRelevantFeedback collection_name query_vector = Except.ok fb)
    (h4 : fb ≠ []) :
    apply_feedback_scoring env collection_name results query_vector =
      sortByScoreDesc (results.map (fun r =>
        { r with
          score := 45/100 * r.score + 35/100 * (r.rerankScore.getD r.score) +
                   10/100 * smoothed_positive_ratio fb r.docId +
                   10/100 * smoothed_positive_ratio fb r.docId,
          feedbackScore := some (smoothed_positive_ratio fb r.docId) })) := by
  have h2' : results.isEmpty = false := by simpa [List.isEmpty_iff] using h2
  have h4' : fb.isEmpty = false := by simpa [List.isEmpty_iff] using h4
  unfold apply_feedback_scoring
  rw [h1, h3]
  simp only [h2', h4', Bool.not_true, Bool.or_false, Bool.false_or, Bool.false_eq_true,
    if_false, ite_false]
  congr 1
  apply List.map_congr_left
  intro r hr
  have hmem : r.docId ∈ results.map (fun r => r.docId) := List.mem_map_of_mem _ hr
  rw [lookup_calculate_feedback_scores _ fb _ hmem, Option.getD_some,
    feedback_score_of_eq_ratio]

/-- A concrete environment whose feedback store returns one positive entry
for document `doc1`. -/
def feedbackWitnessEnv : SearchEnv :=
  { embed := fun _ => Except.ok [1],
    rawSearch := fun _ _ _ _ => Except.ok [],
    rerankerAvailable := false,
    rerank := fun _ rs => Except.ok rs,
    feedbackEnabled := true,
    getRelevantFeedback := fun _ _ => Except.ok [⟨["doc1"], 1⟩],
    relevanceThreshold := 1/4,
    llmGenerate := fun _ _ _ => Except.ok "answer",
    enhanceResponse := fun a _ => a,
    criticAvailable := false,
    criticEvaluate := fun _ _ _ => none }

/-- Witness for C7 on a one-element result list and one feedback entry. -/
theorem C7_witness :
    apply_feedback_scoring feedbackWitnessEnv "col" [⟨1/2, "doc1", "t", none, none⟩] [1] =
      sortByScoreDesc ([(⟨1/2, "doc1", "t", none, none⟩ : SearchResult)].map (fun r =>
        { r with
          score := 45/100 * r.score + 35/100 * (r.rerankScore.getD r.score) +
                   10/100 * smoothed_positive_ratio [⟨["doc1"], 1⟩] r.docId +
                   10/100 * smoothed_positive_ratio [⟨["doc1"], 1⟩] r.docId,
          feedbackScore := some (smoothed_positive_ratio [⟨["doc1"], 1⟩] r.docId) })) :=
  C7_feedback_fusion feedbackWitnessEnv "col" [1] [⟨1/2, "doc1", "t", none, none⟩]
    [⟨["doc1"], 1⟩] rfl (by simp) rfl (by simp)

/-- C2: if the embedding call throws, or every vector-store search throws,
`search` returns the empty-result response — answer "Context not found",
confidence 0, `is_relevant` false, empty chunk list — instead of raising (the
embedded `search` returns a plain `QueryResponse` by construction, matching
the source's catch-all `except`). -/
theorem C2_search_degrades_on_backend_failure (env : SearchEnv)
    (collection_name query_text : String) (limit : Nat)
    (enable_critic structured_output : Bool)
    (h : (∃ e, env.embed query_text = Except.error e) ∨
         (∀ v n t, ∃ e, env.rawSearch collection_name v n t = Except.error e)) :
    search env collection_name query_text limit enable_critic structured_output =
      { answer := "Context not found", confidence := 0, is_relevant := false,
        chunks := [], critic := none } := by
  have hresp : ({ answer := "Context not found", confidence := 0, is_relevant := false,
                  chunks := [], critic := none } : QueryResponse) =
      contextNotFoundResponse := rfl
  rw [hresp]
  rcases h with ⟨e, he⟩ | hall
  · unfold search
    rw [he]
  · cases hemb : env.embed query_text with
    | error e =>
      unfold search
      rw [hemb]
    | ok v =>
      have hqc : ∀ n t, query_collection env collection_name v n t = [] := by
        intro n t
        obtain ⟨e, he⟩ := hall v n t
        unfold query_collection
        rw [he]
      have hres : smart_chunk_retrieval
          (fun n t => query_collection env collection_name v n t) query_text limit = [] := by
        unfold smart_chunk_retrieval
        cases hI : detect_query_intent query_text with
        | none => exact hqc limit none
        | some i =>
          simp only [hqc]
          cases i <;> simp [sortByScoreDesc]
      unfold search
      rw [hemb]
      simp only [hres]
      simp [apply_feedback_scoring, create_query_response, filter_relevant_results]

/-- A concrete environment whose embedding call always throws. -/
def embedFailEnv : SearchEnv :=
  { embed := fun _ => Except.error "embedding model unavailable",
    rawSearch := fun _ _ _ _ => Except.ok [],
    rerankerAvailable := true,
    rerank := fun _ rs => Except.ok rs,
    feedbackEnabled := true,
    getRelevantFeedback := fun _ _ => Except.ok [],
    relevanceThreshold := 1/4,
    llmGenerate := fun _ _ _ => Except.ok "answer",
    enhanceResponse := fun a _ => a,
    criticAvailable := false,
    criticEvaluate := fun _ _ _ => none }

/-- Witness for C2 at a concrete failing environment. -/
theorem C2_witness :
    search embedFailEnv "physics" "what is force?" 10 true false =
      { answer := "Context not found", confidence := 0, is_relevant := false,
        chunks := [], critic := none } :=
  C2_search_degrades_on_backend_failure embedFailEnv "physics" "what is force?" 10 true false
    (Or.inl ⟨"embedding model unavailable", rfl⟩)

/-! ## PDF model and the Structure Extractor
(`HierarchicalChunkingService._extract_headers_with_font_sizes` and friends)

A page is modelled at line granularity: each line carries its text, its
rounded vertical position (pdfplumber's `round(char["y0"])`, by which
`_extract_lines_with_font_info` groups characters and sorts lines) and the
font sizes of its characters.  `page.extract_text()` is modelled as the
lines' texts joined with newlines in list order (reading order), while the
font-size passes traverse the same lines, the second pass in ascending-`y0`
order exactly as `sorted(lines_dict.items())` does. -/

structure PdfLine where
  text : String
  y0 : Int
  sizes : List ℚ
deriving DecidableEq

structure PdfPage where
  lines : List PdfLine
deriving DecidableEq

/-- `page.extract_text() or ""`. -/
def page_extract_text (p : PdfPage) : String :=
  String.intercalate "\n" (p.lines.map (fun l => l.text))

/-- `_extract_lines_with_font_info`: the page's lines sorted by rounded `y0`
ascending (`sorted(lines_dict.items())`, a stable ascending sort). -/
def lines_with_font_info (p : PdfPage) : List PdfLine :=
  List.insertionSort (fun a b => a.y0 ≤ b.y0) p.lines

/-- The average font size of a line's characters, 12 when none carries size
information. -/
def line_font_size (l : PdfLine) : ℚ :=
  if l.sizes.isEmpty then 12 else l.sizes.sum / (l.sizes.length : ℚ)

/-- Case-insensitive literal prefix (the `re.IGNORECASE` literals of the
header regexes): returns the remainder after the prefix. -/
def ciPrefix : List Char → List Char → Option (List Char)
  | [], cs => some cs
  | _, [] => none
  | p :: ps, c :: cs => if pyLowerChar c = pyLowerChar p then ciPrefix ps cs else none

/-- The separator class `[:\-\s]` of the header regexes. -/
def sepChar (c : Char) : Bool :=
  c = ':' || c = '-' || pySpace c

/-- The common tail `[:\-\s]*(.+?)$` of the two header regexes, applied to
the text after the captured number: the greedy separator run backs off just
enough to leave a non-empty capture, so group 2 is `rest` minus
`min(run, len(rest) - 1)` leading separators; an empty `rest` fails (the
caller then backtracks into the digits). -/
def sepTail (rest : List Char) : Option (List Char) :=
  if rest.isEmpty then none
  else
    let k := (rest.takeWhile sepChar).length
    some (rest.drop (min k (rest.length - 1)))

/-- The `\s*(\d+)[:\-\s]*(.+?)$` suffix of the chapter regex after the
chapter keyword.  When the line ends right at the digits, `re` backtracks
`(\d+)` by one digit so that `(.+?)` can capture it, which only succeeds
with at least two digits. -/
def numberTail (afterKeyword : List Char) : Option (Nat × List Char) :=
  let afterSpace := afterKeyword.dropWhile pySpace
  let digits := afterSpace.takeWhile Char.isDigit
  let rest := afterSpace.drop digits.length
  if digits.isEmpty then none
  else
    match sepTail rest with
    | some title => some (digitsToNat digits, title)
    | none =>
      if 2 ≤ digits.length then
        some (digitsToNat digits.dropLast, [digits.getLastD ' '])
      else none

/-- `re.match` of `self.chapter_pattern`
(`^(?:chapter|ch\.?)\s*(\d+)[:\-\s]*(.+?)$`, IGNORECASE): the captured
chapter number and raw title; the alternation tries `chapter`, then `ch.`,
then `ch`. -/
def chapterMatch (s : String) : Option (Nat × String) :=
  let cs := s.toList
  let tryKeyword := fun (p : String) =>
    match ciPrefix p.toList cs with
    | none => none
    | some rest =>
      match numberTail rest with
      | none => none
      | some (n, title) => some (n, String.mk title)
  match tryKeyword "chapter" with
  | some r => some r
  | none =>
    match tryKeyword "ch." with
    | some r => some r
    | none => tryKeyword "ch"

/-- The greedy `(?:\.\d+)+` loop of the section regex: consume dot-digit
groups, returning the consumed characters, the remainder and the group
count.  The fuel argument (instantiated with the list's length, ample since
every group consumes at least two characters) keeps the recursion
structural. -/
def dotGroupsF : Nat → List Char → List Char × List Char × Nat
  | 0, cs => ([], cs, 0)
  | fuel + 1, cs =>
    match cs with
    | '.' :: tl =>
      let d := tl.takeWhile Char.isDigit
      if d.isEmpty then ([], cs, 0)
      else
        let r := dotGroupsF fuel (tl.drop d.length)
        ('.' :: (d ++ r.1), r.2.1, r.2.2 + 1)
    | _ => ([], cs, 0)

/-- `dotGroupsF` with enough fuel. -/
def dotGroups (cs : List Char) : List Char × List Char × Nat :=
  dotGroupsF cs.length cs

/-- `re.match` of `self.section_pattern`
(`^(\d+(?:\.\d+)+)[:\-\s]+(.+?)$`, IGNORECASE): the captured section number
and raw title.  After the maximal number parse, any backtracking into the
digit groups exposes a digit or a dot, which the mandatory separator class
rejects, so the match succeeds exactly when at least one separator follows
the number and at least two characters remain. -/
def sectionMatch (s : String) : Option (String × String) :=
  let cs := s.toList
  let d0 := cs.takeWhile Char.isDigit
  if d0.isEmpty then none
  else
    let g := dotGroups (cs.drop d0.length)
    if g.2.2 = 0 then none
    else
      let rest := g.2.1
      let k := (rest.takeWhile sepChar).length
      if k = 0 ∨ rest.length < 2 then none
      else
        some (String.mk (d0 ++ g.1), String.mk (rest.drop (min k (rest.length - 1))))

/-- A header dict as the extractor builds it. -/
structure Header where
  type : String
  chapter_num : Option Nat
  chapter_title : Option String
  section_num : Option String
  section_title : Option String
  page : Nat
  y_position : Int
  text : String
  font_size : ℚ
deriving DecidableEq

/-- The synthetic default header the extractor appends when it found no
header at all. -/
def defaultHeader : Header :=
  { type := "chapter", chapter_num := none, chapter_title := some "Document Content",
    section_num := none, section_title := none, page := 1, y_position := 0,
    text := "Document Content", font_size := 12 }

/-- The extractor's final step: synthesise the default header when none was
found (`if not headers: headers.append({...})`). -/
def withDefaultHeader (headers : List Header) : List Header :=
  if headers.isEmpty then [defaultHeader] else headers

/-- The loop body of the font-based second pass, one line at a time; the
state is the headers collected so far and the current chapter (the unused
`current_section` variable of the source is dropped). -/
def processFontLine (header_threshold chapter_threshold : ℚ) (page_num : Nat)
    (st : List Header × Option Header) (l : PdfLine) : List Header × Option Header :=
  let text := pyStrip l.text
  let font_size := line_font_size l
  if text = "" ∨ text.length < 3 then st
  else if 200 < text.length then st
  else if chapter_threshold ≤ font_size then
    let numTitle :=
      match chapterMatch text with
      | some nt => (some nt.1, pyStrip nt.2)
      | none => (none, text)
    let h : Header :=
      { type := "chapter", chapter_num := numTitle.1, chapter_title := some numTitle.2,
        section_num := none, section_title := none, page := page_num,
        y_position := l.y0, text := text, font_size := font_size }
    (st.1 ++ [h], some h)
  else if header_threshold ≤ font_size ∧ font_size < chapter_threshold then
    let numTitle :=
      match sectionMatch text with
      | some nt => (some nt.1, pyStrip nt.2)
      | none => (none, text)
    let h : Header :=
      { type := "section",
        chapter_num := match st.2 with
          | some c => c.chapter_num
          | none => none,
        chapter_title := match st.2 with
          | some c => c.chapter_title
          | none => none,
        section_num := numTitle.1, section_title := some numTitle.2, page := page_num,
        y_position := l.y0, text := text, font_size := font_size }
    (st.1 ++ [h], st.2)
  else st

/-- The loop body of `_extract_headers_text_based`, one raw text line at a
time. -/
def processTextLine (page_num : Nat) (st : List Header × Option Header)
    (line0 : String) : List Header × Option Header :=
  let line := pyStrip line0
  if line = "" then st
  else
    match chapterMatch line with
    | some nt =>
      let h : Header :=
        { type := "chapter", chapter_num := some nt.1, chapter_title := some (pyStrip nt.2),
          section_num := none, section_title := none, page := page_num,
          y_position := 0, text := line, font_size := 16 }
      (st.1 ++ [h], some h)
    | none =>
      match sectionMatch line with
      | some nt =>
        let h : Header :=
          { type := "section",
            chapter_num := match st.2 with
              | some c => c.chapter_num
              | none => none,
            chapter_title := match st.2 with
              | some c => c.chapter_title
              | none => none,
            section_num := some nt.1, section_title := some (pyStrip nt.2),
            page := page_num, y_position := 0, text := line, font_size := 14 }
        (st.1 ++ [h], st.2)
      | none => st

/-- `HierarchicalChunkingService._extract_headers_text_based`. -/
def extract_headers_text_based (pdf : List PdfPage) : List Header :=
  let headers := ((List.enumFrom 1 pdf).foldl
    (fun st pg => (splitLines (page_extract_text pg.2)).foldl (processTextLine pg.1) st)
    ([], none)).1
  withDefaultHeader headers

/-- `HierarchicalChunkingService._extract_headers_with_font_sizes`: collect
all font sizes, take the median (`font_sizes[len // 2]` after sorting),
derive the two thresholds (`median * 1.2`, `median * 1.5`), and classify
each line of each page; with no font information at all, fall back to the
text-based pass. -/
def extract_headers_with_font_sizes (pdf : List PdfPage) : List Header :=
  let font_sizes := pdf.flatMap (fun p => p.lines.flatMap (fun l => l.sizes))
  if font_sizes.isEmpty then extract_headers_text_based pdf
  else
    let sorted := List.insertionSort (fun a b => a ≤ b) font_sizes
    let median_size := sorted.getD (sorted.length / 2) 0
    let header_threshold := median_size * (6/5)
    let chapter_threshold := median_size * (3/2)
    let headers := ((List.enumFrom 1 pdf).foldl
      (fun st pg => (lines_with_font_info pg.2).foldl
        (processFontLine header_threshold chapter_threshold pg.1) st)
      ([], none)).1
    withDefaultHeader headers

/-! ## The Hierarchical Chunk Builder
(`_extract_content_between_headers`, `_create_chunk_from_header`,
`_create_basic_chunks`, `chunk_pdf_hierarchically`) -/

structure TopicMetadata where
  chapter_num : Option Nat
  chapter_title : Option String
  section_num : Option String
  section_title : Option String
  page_start : Option Nat
  page_end : Option Nat
deriving DecidableEq

/-- `HierarchicalChunk`, restricted to the fields the claims mention:
`chunk_id` and `topic_id` are fresh UUIDs in the source, and the
key-term/equation/diagram metadata passes through Python's unordered
`set()`; no claim mentions them. -/
structure HierarchicalChunk where
  document_id : String
  text : String
  topic_metadata : TopicMetadata
  chunk_type : ChunkType
deriving DecidableEq

/-- `HierarchicalChunkingService._extract_content_between_headers`: walk the
pages from the header's page to the boundary page; on the first page drop
every line up to and including the first line containing the header's text;
on the last page (when distinct from the first and a next header exists)
keep only the lines before the first line containing the next header's
text; middle pages are taken whole. -/
def extract_content_between_headers (pdf : List PdfPage) (header : Header)
    (next_header : Option Header) : String :=
  let start_page := header.page - 1
  let end_page :=
    match next_header with
    | some nh => nh.page - 1
    | none => pdf.length - 1
  let idxs := List.range' start_page (min (end_page + 1) pdf.length - start_page)
  let content_parts := idxs.map (fun page_idx =>
    let text := page_extract_text (pdf.getD page_idx ⟨[]⟩)
    if page_idx = start_page then
      let lines := splitLines text
      match lines.findIdx? (fun line => strContains line header.text) with
      | some i => String.intercalate "\n" (lines.drop (i + 1))
      | none => text
    else if page_idx = end_page ∧ next_header.isSome then
      let lines := splitLines text
      match next_header with
      | some nh =>
        match lines.findIdx? (fun line => strContains line nh.text) with
        | some i => String.intercalate "\n" (lines.take i)
        | none => text
      | none => text
    else text)
  String.intercalate "\n" content_parts

/-- `HierarchicalChunkingService._create_chunk_from_header` (the
`chunk_size` argument is accepted and ignored, as in the source): `None`
when the span's content is empty or shorter than 50 characters once
stripped. -/
def create_chunk_from_header (pdf : List PdfPage) (header : Header)
    (next_header : Option Header) (document_id : String) (chunk_size : Nat) :
    Option HierarchicalChunk :=
  let content := extract_content_between_headers pdf header next_header
  if content = "" ∨ (pyStrip content).length < 50 then none
  else
    some { document_id := document_id, text := content,
           chunk_type := classify_chunk_type_from_header header.text,
           topic_metadata :=
             { chapter_num := header.chapter_num,
               chapter_title := header.chapter_title,
               section_num := header.section_num,
               section_title := header.section_title,
               page_start := some header.page,
               page_end := some (match next_header with
                 | some nh => nh.page
                 | none => header.page) } }

theorem dropWhile_length_le (p : Char → Bool) (cs : List Char) :
    (cs.dropWhile p).length ≤ cs.length := by
  induction cs with
  | nil => simp
  | cons c tl ih =>
    by_cases h : p c
    · simp [List.dropWhile, h]
      omega
    · simp [List.dropWhile, h]

/-- `re.split(r'(?<=[.!?])\s+', text)`: split at each whitespace run directly
preceded by sentence-ending punctuation, consuming the run.  The Boolean
state is true while the separator's whitespace run is being consumed. -/
def splitSentencesAux : List Char → Bool → List Char → List String → List String
  | [], _, cur, acc => (String.mk cur.reverse :: acc).reverse
  | c :: cs, separating, cur, acc =>
    if separating && pySpace c && cur.isEmpty then
      splitSentencesAux cs true [] acc
    else if pySpace c && (match cur with
        | p :: _ => p = '.' || p = '!' || p = '?'
        | [] => false) then
      splitSentencesAux cs true [] (String.mk cur.reverse :: acc)
    else splitSentencesAux cs false (c :: cur) acc

/-- The sentence splitter on a whole string. -/
def splitSentences (text : String) : List String :=
  splitSentencesAux text.toList false [] []

/-- The fixed `TopicMetadata` of a fallback chunk. -/
def basicChunkMeta (chunk_num : Nat) : TopicMetadata :=
  { chapter_num := none, chapter_title := some "Document Content",
    section_num := some ("Part " ++ toString chunk_num),
    section_title := some ("Content Part " ++ toString chunk_num),
    page_start := none, page_end := none }

/-- The loop state of `_create_basic_chunks`. -/
structure BasicChunkState where
  current_chunk : String
  chunk_num : Nat
  chunks : List HierarchicalChunk
deriving DecidableEq

/-- The per-sentence body of `_create_basic_chunks`: when adding the
sentence would exceed `chunk_size` and the current chunk is non-empty, emit
the chunk and seed the next one with the last `chunk_overlap` words
(`words[-chunk_overlap:]` — note Python's `[-0:]` keeps every word). -/
def processSentence (document_id : String) (chunk_size chunk_overlap : Nat)
    (st : BasicChunkState) (sentence : String) : BasicChunkState :=
  if chunk_size < st.current_chunk.length + sentence.length ∧ st.current_chunk ≠ "" then
    let chunk_num := st.chunk_num + 1
    let chunk : HierarchicalChunk :=
      { document_id := document_id, text := pyStrip st.current_chunk,
        topic_metadata := basicChunkMeta chunk_num,
        chunk_type := ChunkType.CONCEPT }
    let words := pySplitWs st.current_chunk
    let overlap_words :=
      if chunk_overlap < words.length then
        (if chunk_overlap = 0 then words else words.drop (words.length - chunk_overlap))
      else words
    { current_chunk := String.intercalate " " overlap_words ++ " " ++ sentence,
      chunk_num := chunk_num, chunks := st.chunks ++ [chunk] }
  else
    { st with current_chunk :=
        if st.current_chunk ≠ "" then st.current_chunk ++ " " ++ sentence else sentence }

/-- `HierarchicalChunkingService._create_basic_chunks`: sentence-aware
sliding-window chunking with word-level overlap; every chunk defaults to
CONCEPT. -/
def create_basic_chunks (text0 document_id : String)
    (chunk_size chunk_overlap : Nat) : List HierarchicalChunk :=
  let text := pyStrip text0
  if text = "" then []
  else
    let sentences := splitSentences text
    let st := sentences.foldl (processSentence document_id chunk_size chunk_overlap)
      { current_chunk := "", chunk_num := 0, chunks := [] }
    if pyStrip st.current_chunk ≠ "" then
      let last : HierarchicalChunk :=
        { document_id := document_id, text := pyStrip st.current_chunk,
          topic_metadata := basicChunkMeta (st.chunk_num + 1),
          chunk_type := ChunkType.CONCEPT }
      st.chunks ++ [last]
    else st.chunks

/-- The header-pairing loop of `chunk_pdf_hierarchically`: header `i` is
paired with header `i+1` (`None` for the last), and `None` chunks are
dropped. -/
def chunks_from_headers (pdf : List PdfPage) (document_id : String) (chunk_size : Nat) :
    List Header → List HierarchicalChunk
  | [] => []
  | [h] => (create_chunk_from_header pdf h none document_id chunk_size).toList
  | h :: h2 :: rest =>
    (create_chunk_from_header pdf h (some h2) document_id chunk_size).toList ++
      chunks_from_headers pdf document_id chunk_size (h2 :: rest)

/-- `HierarchicalChunkingService.chunk_pdf_hierarchically`: extract headers,
fall back to basic text chunking when there are none, otherwise chunk
between consecutive headers. -/
def chunk_pdf_hierarchically (pdf : List PdfPage) (document_id : String)
    (chunk_size chunk_overlap : Nat) : List HierarchicalChunk :=
  let headers := extract_headers_with_font_sizes pdf
  if headers.isEmpty then
    let full_text := pdf.foldl (fun acc p =>
      let text := page_extract_text p
      if text ≠ "" then acc ++ text ++ "\n" else acc) ""
    if pyStrip full_text ≠ "" then
      create_basic_chunks full_text document_id chunk_size chunk_overlap
    else []
  else chunks_from_headers pdf document_id chunk_size headers

/-! ## Claims C9, C1 and C3 -/

theorem withDefaultHeader_ne_nil (l : List Header) : withDefaultHeader l ≠ [] := by
  unfold withDefaultHeader
  split
  · simp
  · next h =>
    simp only [List.isEmpty_iff] at h
    exact h

/-- The Structure Extractor never returns an empty header list: when nothing
is found, the synthetic default header is appended (in both the font-based
pass and the text-based fallback). -/
theorem extract_headers_ne_nil (pdf : List PdfPage) :
    extract_headers_with_font_sizes pdf ≠ [] := by
  simp only [extract_headers_with_font_sizes]
  split
  · simp only [extract_headers_text_based]
    exact withDefaultHeader_ne_nil _
  · exact withDefaultHeader_ne_nil _

theorem mem_chunks_from_headers (pdf : List PdfPage) (document_id : String)
    (chunk_size : Nat) (hs : List Header) (c : HierarchicalChunk)
    (hc : c ∈ chunks_from_headers pdf document_id chunk_size hs) :
    ∃ h next, create_chunk_from_header pdf h next document_id chunk_size = some c := by
  induction hs with
  | nil => simp [chunks_from_headers] at hc
  | cons h tl ih =>
    cases tl with
    | nil =>
      simp only [chunks_from_headers, Option.mem_toList, Option.mem_def] at hc
      exact ⟨h, none, hc⟩
    | cons h2 rest =>
      simp only [chunks_from_headers, List.mem_append, Option.mem_toList,
        Option.mem_def] at hc
      rcases hc with h1 | h1
      · exact ⟨h, some h2, h1⟩
      · exact ih h1

theorem create_chunk_from_header_min_length (pdf : List PdfPage) (header : Header)
    (next_header : Option Header) (document_id : String) (chunk_size : Nat)
    (c : HierarchicalChunk)
    (hc : create_chunk_from_header pdf header next_header document_id chunk_size = some c) :
    50 ≤ (pyStrip c.text).length ∧ c.text ≠ "" := by
  simp only [create_chunk_from_header] at hc
  split at hc
  · cases hc
  · next hcond =>
    push_neg at hcond
    obtain ⟨h1, h2⟩ := hcond
    injection hc with hc
    subst hc
    exact ⟨by simpa using h2, by simpa using h1⟩

/-- C9: every chunk `chunk_pdf_hierarchically` emits has non-empty text whose
stripped length is at least 50 characters (the extractor always returns at
least one header — possibly the synthetic default — so every emitted chunk
passes `_create_chunk_from_header`'s length gate), and a header-delimited
span whose stripped content is shorter than 50 characters is silently
skipped: no chunk is emitted for it and no error is raised (the function's
total type returns a plain list). -/
theorem C9_min_chunk_length (pdf : List PdfPage) (document_id : String)
    (chunk_size chunk_overlap : Nat) (c : HierarchicalChunk)
    (hc : c ∈ chunk_pdf_hierarchically pdf document_id chunk_size chunk_overlap) :
    (50 ≤ (pyStrip c.text).length ∧ c.text ≠ "") ∧
    (∀ h next, (pyStrip (extract_content_between_headers pdf h next)).length < 50 →
      create_chunk_from_header pdf h next document_id chunk_size = none) := by
  constructor
  · have hne : (extract_headers_with_font_sizes pdf).isEmpty = false := by
      simpa [List.isEmpty_iff] using extract_headers_ne_nil pdf
    simp only [chunk_pdf_hierarchically, hne, Bool.false_eq_true, if_false] at hc
    obtain ⟨h, next, hsome⟩ := mem_chunks_from_headers _ _ _ _ _ hc
    exact create_chunk_from_header_min_length _ _ _ _ _ _ hsome
  · intro h next hlen
    unfold create_chunk_from_header
    rw [if_pos (Or.inr hlen)]

/-- A one-page document with no font information and no header-like line:
the extractor synthesises the default header and the whole page becomes one
chunk. -/
def pdfC9 : List PdfPage :=
  [⟨[⟨"Energy is conserved in every closed physical system we study.", 0, []⟩]⟩]

/-- The one chunk `chunk_pdf_hierarchically` produces from `pdfC9`. -/
def chunkC9 : HierarchicalChunk :=
  { document_id := "doc",
    text := "Energy is conserved in every closed physical system we study.",
    topic_metadata :=
      { chapter_num := none, chapter_title := some "Document Content",
        section_num := none, section_title := none,
        page_start := some 1, page_end := some 1 },
    chunk_type := ChunkType.CONCEPT }

/-- Witness for C9 at a concrete document and chunk. -/
theorem C9_witness :
    (50 ≤ (pyStrip chunkC9.text).length ∧ chunkC9.text ≠ "") ∧
    (∀ h next, (pyStrip (extract_content_between_headers pdfC9 h next)).length < 50 →
      create_chunk_from_header pdfC9 h next "doc" 512 = none) :=
  C9_min_chunk_length pdfC9 "doc" 512 50 chunkC9 (by with_unfolding_all decide)

/-- A one-page document whose lines all carry the same font size, so the
extractor finds no real header and synthesises the default one; its text is
189 characters of plain sentences. -/
def pdfC1 : List PdfPage :=
  [⟨[⟨"Work equals force times displacement in the direction of motion.", 30, [10, 10]⟩,
     ⟨"Power is the rate at which work is done by the applied force.", 20, [10, 10]⟩,
     ⟨"Kinetic energy grows with the square of the speed of the body.", 10, [10, 10]⟩]⟩]

/-- The text `chunk_pdf_hierarchically` would hand to the fallback chunker
for `pdfC1` (each page's text plus a trailing newline). -/
def fullTextC1 : String :=
  "Work equals force times displacement in the direction of motion.\nPower is the rate at which work is done by the applied force.\nKinetic energy grows with the square of the speed of the body.\n"

/-- C1, evaluated at the failing input: on a document in which the Structure
Extractor finds no real header, `chunk_pdf_hierarchically` with
`chunk_size = 100` does *not* perform sliding-window chunking — the
extractor's synthetic default header makes the `if not headers` fallback
branch unreachable, so the builder emits exactly one header-based chunk
holding the whole 189-character text (greater than `chunk_size` plus any
small tolerance; 150 = 100 + 50 is used here), whereas the sentence-aware
sliding-window chunker `_create_basic_chunks` that the claim describes
would split the same text into at least two chunks. -/
theorem C1_code_eval :
    (chunk_pdf_hierarchically pdfC1 "doc" 100 10).length = 1 ∧
    (chunk_pdf_hierarchically pdfC1 "doc" 100 10).all
      (fun c => decide (150 < c.text.length) &&
        decide (c.chunk_type = ChunkType.CONCEPT)) = true ∧
    2 ≤ (create_basic_chunks fullTextC1 "doc" 100 10).length := by
  set_option maxRecDepth 8000 in with_unfolding_all decide

/-- A one-page document with two large-font headers on the same page, body
text below each. -/
def pdfC3 : List PdfPage :=
  [⟨[⟨"Forces and Motion", 700, [20]⟩,
     ⟨"A force changes the state of motion of a body it acts upon.", 680, [10, 10, 10]⟩,
     ⟨"The net force determines the acceleration of the body in question.", 660, [10, 10, 10]⟩,
     ⟨"Energy and Work Overview", 600, [20]⟩,
     ⟨"Work transfers energy between a body and the agent of the force.", 580, [10, 10, 10]⟩,
     ⟨"The total energy of an isolated physical system stays constant.", 560, [10, 10, 10]⟩]⟩]

/-- The body text that ends up inside both chunks of `pdfC3`. -/
def sharedBodyC3 : String :=
  "Work transfers energy between a body and the agent of the force.\nThe total energy of an isolated physical system stays constant."

/-- C3, evaluated at the failing input: when two consecutive headers share a
page, `_extract_content_between_headers` takes the `page_idx == start_page`
branch (which only discards lines up to the chunk's own header) and never
reaches the `page_idx == end_page` branch that would discard the lines at
and after the next header, so the 129 characters of body text below the
later header appear in the text of both adjacent chunks — contradicting the
claim that no character of body text appears in two chunks. -/
theorem C3_code_eval :
    (chunk_pdf_hierarchically pdfC3 "doc" 512 50).length = 2 ∧
    (chunk_pdf_hierarchically pdfC3 "doc" 512 50).all
      (fun c => strContains c.text sharedBodyC3) = true := by
  set_option maxRecDepth 8000 in with_unfolding_all decide

/-! ## Content-type detection (`strategies/content_strategy_selector.py`)

`detect_content_type` is modelled over the file's size in bytes, the first
page's text (`none` when unreadable or empty, as `_read_first_page` returns
`None` then) and the caller's hint.  The five `BOOK_INDICATORS` regexes and
the `CHAPTER_PATTERNS` are compiled by hand; note that the third indicator's
bytes in the source file are `\bcopyright\s+Â©?\s*\d{4}` — a literal `Â`
(U+00C2) followed by an optional `©`, the classic UTF-8-read-as-Latin-1
corruption of `©` — so the mandatory `Â` is kept faithfully. -/

inductive ContentType where
  | BOOK
  | CHAPTER
  | DOCUMENT
  | AUTO
deriving DecidableEq

/-- The regex word class `\w` on the ASCII range. -/
def isWordChar (c : Char) : Bool :=
  c.isAlphanum || c = '_'

/-- A `\b`-anchored occurrence of the literal `w` starting at position `i`
(left boundary only; a right boundary is checked by the caller where the
pattern has one). -/
def wordAt (cs : List Char) (i : Nat) (w : List Char) : Bool :=
  w.isPrefixOf (cs.drop i) && (decide (i = 0) || !isWordChar (cs.getD (i - 1) ' '))

/-- A word boundary at position `j` of `cs` (the end of the list counts). -/
def boundaryAfter (cs : List Char) (j : Nat) : Bool :=
  !isWordChar (cs.getD j ' ')

/-- `re.search(r"\bedition\b", text_lower)`. -/
def matchEdition (cs : List Char) : Bool :=
  (List.range (cs.length + 1)).any (fun i =>
    wordAt cs i "edition".toList && boundaryAfter cs (i + 7))

/-- `re.search(r"\bisbn[\s\-:]*\d", text_lower)`. -/
def matchIsbn (cs : List Char) : Bool :=
  (List.range (cs.length + 1)).any (fun i =>
    wordAt cs i "isbn".toList &&
    (((cs.drop (i + 4)).dropWhile (fun c => pySpace c || c = '-' || c = ':')).headD ' ').isDigit)

/-- The third book indicator, with the mojibake kept: after `copyright` and
at least one space there must stand a literal `Â`, an optional `©`, optional
spaces and four digits.  Since the search runs on the lowercased text and no
character lowercases to `Â`, this matcher can in fact never fire. -/
def matchCopyright (cs : List Char) : Bool :=
  (List.range (cs.length + 1)).any (fun i =>
    wordAt cs i "copyright".toList &&
    (let r0 := cs.drop (i + 9)
     pySpace (r0.headD 'x') &&
     (match r0.dropWhile pySpace with
      | 'Â' :: r2 =>
        let r3 := match r2 with
          | '©' :: r4 => r4
          | _ => r2
        let r5 := r3.dropWhile pySpace
        decide ((r5.take 4).length = 4) && (r5.take 4).all Char.isDigit
      | _ => false)))

/-- `re.search(r"\bpublished\s+by\b", text_lower)`. -/
def matchPublished (cs : List Char) : Bool :=
  (List.range (cs.length + 1)).any (fun i =>
    wordAt cs i "published".toList &&
    (let r0 := cs.drop (i + 9)
     pySpace (r0.headD 'x') &&
     (let r1 := r0.dropWhile pySpace
      "by".toList.isPrefixOf r1 && boundaryAfter r1 2)))

/-- The `\s+press\b` tail shared by the fifth indicator's two alternatives. -/
def pressTail (r0 : List Char) : Bool :=
  pySpace (r0.headD 'x') &&
  (let r1 := r0.dropWhile pySpace
   "press".toList.isPrefixOf r1 && boundaryAfter r1 5)

/-- `re.search(r"\b(?:university|academic)\s+press\b", text_lower)`. -/
def matchPress (cs : List Char) : Bool :=
  (List.range (cs.length + 1)).any (fun i =>
    (wordAt cs i "university".toList && pressTail (cs.drop (i + 10))) ||
    (wordAt cs i "academic".toList && pressTail (cs.drop (i + 8))))

/-- `ContentStrategySelector.BOOK_INDICATORS` as matchers. -/
def book_indicator_matchers : List (List Char → Bool) :=
  [matchEdition, matchIsbn, matchCopyright, matchPublished, matchPress]

/-- The `strong_match_count` of `_is_book_first_page`. -/
def strong_match_count (text_lower : List Char) : Nat :=
  book_indicator_matchers.countP (fun m => m text_lower)

/-- One (greedy, hence maximal) match of `chapter\s+\d+` starting exactly at
the head of `cs`, returning the remainder after it. -/
def chapterRefHere (cs : List Char) : Option (List Char) :=
  if "chapter".toList.isPrefixOf cs then
    let r0 := cs.drop 7
    if pySpace (r0.headD 'x') then
      let r1 := r0.dropWhile pySpace
      let d := r1.takeWhile Char.isDigit
      if d.isEmpty then none else some (r1.drop d.length)
    else none
  else none

/-- `len(re.findall(r"chapter\s+\d+", text_lower))`: count non-overlapping
matches left to right (fuel keeps the recursion structural; every match
consumes at least one character). -/
def countChapterRefsF : Nat → List Char → Nat
  | 0, _ => 0
  | _ + 1, [] => 0
  | fuel + 1, c :: cs =>
    match chapterRefHere (c :: cs) with
    | some rest => 1 + countChapterRefsF fuel rest
    | none => countChapterRefsF fuel cs

def countChapterRefs (cs : List Char) : Nat :=
  countChapterRefsF cs.length cs

/-- `ContentStrategySelector._is_book_first_page`: at least 2 of the 5
indicators, or at least 3 `chapter <n>` references. -/
def is_book_first_page (text : String) : Bool :=
  let text_lower := (pyLower text).toList
  if 2 ≤ strong_match_count text_lower then true
  else 3 ≤ countChapterRefs text_lower

/-- One of `CHAPTER_PATTERNS` matching at the start of the given line (the
`^` anchors of the `re.MULTILINE | re.IGNORECASE` search land exactly at the
starts of the joined first lines): `^chapter\s+\d+` (whose all-caps twin is
identical under IGNORECASE), `^ch\.?\s*\d+`, and `^\d+\.\s+[A-Z]` (any
letter under IGNORECASE). -/
def chapter_pattern_at_line_start (line : String) : Bool :=
  let cs := line.toList
  let low := cs.map pyLowerChar
  (("chapter".toList.isPrefixOf low) &&
    (let r0 := low.drop 7
     pySpace (r0.headD 'x') && !((r0.dropWhile pySpace).takeWhile Char.isDigit).isEmpty)) ||
  (("ch".toList.isPrefixOf low) &&
    (let r0 := low.drop 2
     let r1 := match r0 with
       | '.' :: t => t
       | _ => r0
     !((r1.dropWhile pySpace).takeWhile Char.isDigit).isEmpty)) ||
  (let d := cs.takeWhile Char.isDigit
   !d.isEmpty &&
   (match cs.drop d.length with
    | '.' :: r0 => pySpace (r0.headD 'x') && ((r0.dropWhile pySpace).headD ' ').isAlpha
    | _ => false))

/-- `ContentStrategySelector._is_chapter_first_page`: check the first 5
lines. -/
def is_chapter_first_page (text : String) : Bool :=
  ((splitLines text).take 5).any chapter_pattern_at_line_start

/-- `ContentStrategySelector._is_large_file`:
`os.path.getsize(path) / (1024 * 1024) > 5`. -/
def is_large_file (file_size_bytes : Nat) : Bool :=
  decide ((5 : ℚ) < (file_size_bytes : ℚ) / (1024 * 1024))

/-- `ContentStrategySelector.detect_content_type`: an explicit non-AUTO hint
wins; then the size check; then the first page's book indicators; then the
chapter patterns; else DOCUMENT. -/
def detect_content_type (file_size_bytes : Nat) (first_page_text : Option String)
    (user_hint : Option ContentType) : ContentType :=
  if (match user_hint with
      | some h => decide (h ≠ ContentType.AUTO)
      | none => false) then user_hint.getD ContentType.DOCUMENT
  else if is_large_file file_size_bytes then ContentType.BOOK
  else
    match first_page_text with
    | none => ContentType.DOCUMENT
    | some t =>
      if is_book_first_page t then ContentType.BOOK
      else if is_chapter_first_page t then ContentType.CHAPTER
      else ContentType.DOCUMENT

/-- C8, evaluated at the failing input: a 2 MB PDF whose first page reads
"3rd Edition" and "Copyright © 2020" matches only ONE book indicator — the
mojibake `Â` in the copyright regex makes "Copyright © 2020" fail it — so
the code returns DOCUMENT where the claim's reading ("copyright with a
year" being an indicator, hence 2 hits ≥ 2) requires BOOK.  The claim's
remaining concrete examples hold: 6 MB → BOOK regardless of content, a
first page starting "Chapter 5" → CHAPTER, and a plain 500 KB page →
DOCUMENT. -/
theorem C8_code_eval :
    detect_content_type (2 * 1024 * 1024) (some "3rd Edition\nCopyright © 2020") none =
      ContentType.DOCUMENT ∧
    strong_match_count ((pyLower "3rd Edition\nCopyright © 2020").toList) = 1 ∧
    matchEdition ((pyLower "3rd Edition\nCopyright © 2020").toList) = true ∧
    matchCopyright ((pyLower "3rd Edition\nCopyright © 2020").toList) = false ∧
    detect_content_type (6 * 1024 * 1024) (some "any content at all") none =
      ContentType.BOOK ∧
    detect_content_type (1024 * 1024) (some "Chapter 5\nForces and their effects") none =
      ContentType.CHAPTER ∧
    detect_content_type (500 * 1024) (some "Plain lecture notes about momentum") none =
      ContentType.DOCUMENT := by
  with_unfolding_all decide

end RagEngine
